import Mathlib

/-!
# SGTM pull-request automation: decision-logic verification

Shallow embedding of `src/github/logic.py` of the SGTM repository.

Modelling conventions:
* Timestamps are integers measured in hours, so `timedelta(hours = h)` is
  addition of `h` and `datetime.now(...)` is an explicit `now : Int` argument.
* External side effects (`github_client.add_pr_comment`, `merge_pull_request`,
  `rerequest_check_run`) are recorded in an explicit ordered list of `Call`s
  returned alongside the function result; the boolean result of
  `rerequest_check_run` is supplied by an oracle `Nat → Bool` keyed by the
  check-run database id.
* The module-level feature flags of `src/config.py` are threaded through as an
  explicit `Config` record.
* A Python `assert` failure and an uncaught `IndexError` are modelled as
  `Except.error` with the corresponding message.
* The regex of `_is_approval_comment_body` is an alternation of literals, with
  `\s` (in `ship\s?it`) modelled as a single ASCII whitespace character.
-/

namespace SGTM

/-- Substring occurrence on character lists: `pat` occurs somewhere in the
list. -/
def subOccurs (pat : List Char) : List Char → Bool
  | [] => pat.isEmpty
  | c :: rest => pat.isPrefixOf (c :: rest) || subOccurs pat rest

/-- ASCII lowercasing of one character (`str.lower()`; the approval markers
are all ASCII, so only the ASCII range matters here). -/
def asciiLowerChar (c : Char) : Char :=
  if 65 ≤ c.toNat ∧ c.toNat ≤ 90 then Char.ofNat (c.toNat + 32) else c

/-- `re.search` of a literal pattern against the lowercased text: the pattern
occurs somewhere in `s.lower()`. -/
def lowerStrContains (s pat : String) : Bool :=
  subOccurs pat.toList (s.toList.map asciiLowerChar)

/-! ## Data model

Modelled from the spec: the model classes (`src/github/models/pull_request.py`
and friends) are not under `src/`; the spec's §3 data-model table gives their
attributes. Accessor methods such as `author_handle()` return the author's
login; `is_build_successful()` and `is_approved()` are externally supplied
signals, so they appear as plain fields. -/

structure User where
  login : String
  deriving DecidableEq, Repr

inductive MergeableState
  | MERGEABLE
  | CONFLICTING
  | UNKNOWN
  deriving DecidableEq, Repr

inductive ReviewState
  | APPROVED
  | CHANGES_REQUESTED
  | COMMENTED
  | DISMISSED
  deriving DecidableEq, Repr

structure Review where
  author : User
  submittedAt : Int
  state : ReviewState
  body : String
  deriving DecidableEq, Repr

structure Comment where
  author : User
  publishedAt : Int
  body : String
  deriving DecidableEq, Repr

structure CheckRun where
  databaseId : Nat
  completedAt : Option Int
  deriving DecidableEq, Repr

structure CheckSuite where
  checkRuns : List CheckRun
  deriving DecidableEq, Repr

structure Commit where
  checkSuites : List CheckSuite
  deriving DecidableEq, Repr

structure PullRequest where
  id : String
  author : User
  title : String
  body : String
  labels : List String
  merged : Bool
  mergedAt : Option Int
  closed : Bool
  mergeable : MergeableState
  baseRefName : String
  reviews : List Review
  comments : List Comment
  commits : List Commit
  number : Nat
  repositoryOwnerHandle : String
  repositoryName : String
  isBuildSuccessful : Bool
  isApproved : Bool
  deriving DecidableEq, Repr

/-- Modelled from the spec: `Review.is_approval` (models code not under
`src/`); true exactly for an APPROVED review. -/
def Review.is_approval (r : Review) : Bool :=
  r.state = ReviewState.APPROVED

/-- Modelled from the spec: `Review.is_approval_or_changes_requested`; the
spec's §3 says it is "true only for the first two kinds"
(APPROVED / CHANGES_REQUESTED). -/
def Review.is_approval_or_changes_requested (r : Review) : Bool :=
  r.state = ReviewState.APPROVED || r.state = ReviewState.CHANGES_REQUESTED

/-- Modelled from the spec: `PullRequest.is_mergeable` — "mergeable
(merge-state strictly MERGEABLE)" (§4.4). -/
def PullRequest.is_mergeable (pr : PullRequest) : Bool :=
  pr.mergeable = MergeableState.MERGEABLE

/-- Configuration flags threaded from `src/config.py`. -/
structure Config where
  automergeEnabled : Bool
  followupReviewGithubUsers : List String
  checkRerunThresholdHours : Int
  checkRerunBaseRefNames : List String
  checkRerunOnApprovalEnabled : Bool
  deriving DecidableEq, Repr

/-- An external side-effecting call issued through `github_client`. -/
inductive Call
  | addPrComment (owner repo : String) (number : Nat) (body : String)
  | mergePullRequest (owner repo : String) (number : Nat) (title body : String)
  | rerequestCheckRun (owner repo : String) (databaseId : Nat)
  deriving DecidableEq, Repr

/-! ## logic.py: enums, constants and helpers -/

inductive AutomergeLabel
  | AFTER_TESTS_AND_APPROVAL
  | AFTER_TESTS
  | AFTER_APPROVAL
  | IMMEDIATELY
  deriving DecidableEq, Repr

/-- The label strings of the `AutomergeLabel` Python enum. -/
def AutomergeLabel.value : AutomergeLabel → String
  | .AFTER_TESTS_AND_APPROVAL => "merge after tests and approval"
  | .AFTER_TESTS => "merge after tests"
  | .AFTER_APPROVAL => "merge after approval"
  | .IMMEDIATELY => "merge immediately"

inductive ApprovedBeforeMergeStatus
  | NO
  | NEEDS_FOLLOWUP
  | APPROVED
  deriving DecidableEq, Repr

def AUTOMERGE_COMMENT_WARNING_AFTER_TESTS_AND_APPROVAL : String :=
  "**:warning: Reviewer:** If you approve this PR, it will be auto-merged as soon as" ++
  " tests pass. If you don't want this to be auto-merged, either Request Changes or" ++
  " remove the auto-merge label before accepting."

def AUTOMERGE_COMMENT_WARNING_AFTER_APPROVAL : String :=
  "**:warning: Reviewer:** If you approve this PR, it will be auto-merged immediately." ++
  " If you don't want this to be auto-merged, either Request Changes or" ++
  " remove the auto-merge label before accepting."

/-- Modelled from the spec: `src.github.helpers.pull_request_has_label` is not
under `src/`; the spec's §3 treats labels as a set of strings, so this is
membership of the label string. -/
def pull_request_has_label (pr : PullRequest) (label : String) : Bool :=
  pr.labels.contains label

def _pull_request_is_open (pr : PullRequest) : Bool :=
  !pr.closed && !pr.merged

/-- Insert a review after every already-placed review submitted no later than
it, keeping the list sorted ascending. -/
def insertBySubmittedAt (r : Review) : List Review → List Review
  | [] => [r]
  | x :: xs =>
    if x.submittedAt ≤ r.submittedAt then x :: insertBySubmittedAt r xs
    else r :: x :: xs

/-- Ascending stable sort by `submitted_at` (Python `sorted` with key is a
stable ascending sort; insertion in input order preserves the relative order
of equal keys). -/
def sortReviewsBySubmittedAt (rs : List Review) : List Review :=
  rs.foldl (fun acc r => insertBySubmittedAt r acc) []

/-- The qualifying pre-merge reviews of `pull_request_approved_before_merging`:
approval-or-changes-requested reviews submitted strictly before the merge,
sorted ascending by submission time. -/
def premergeReviews (pr : PullRequest) (mergedAt : Int) : List Review :=
  sortReviewsBySubmittedAt
    (pr.reviews.filter
      (fun r => r.is_approval_or_changes_requested && decide (r.submittedAt < mergedAt)))

/-- `pull_request_approved_before_merging` (logic.py lines 85–131). The Python
`assert` on a non-merged pull request is `Except.error`. -/
def pull_request_approved_before_merging (cfg : Config) (pr : PullRequest) :
    Except String ApprovedBeforeMergeStatus :=
  if !pr.merged then
    .error "Checked for pre-merge approval on a non-merged PR"
  else
    match pr.mergedAt with
    | none => .ok ApprovedBeforeMergeStatus.NO
    | some mergedAt =>
      let premerge_reviews := premergeReviews pr mergedAt
      match premerge_reviews.getLast? with
      | none => .ok ApprovedBeforeMergeStatus.NO
      | some latest_review =>
        if !latest_review.is_approval then
          .ok ApprovedBeforeMergeStatus.NO
        else if cfg.followupReviewGithubUsers.contains latest_review.author.login then
          let no_followup_reviews := premerge_reviews.filter
            (fun r => !(cfg.followupReviewGithubUsers.contains r.author.login))
          match no_followup_reviews.getLast? with
          | none => .ok ApprovedBeforeMergeStatus.NEEDS_FOLLOWUP
          | some last_no_followup =>
            if !last_no_followup.is_approval then
              .ok ApprovedBeforeMergeStatus.NEEDS_FOLLOWUP
            else
              .ok ApprovedBeforeMergeStatus.APPROVED
        else
          .ok ApprovedBeforeMergeStatus.APPROVED

/-- Reference procedure written from the spec's words (§4.3, pre-merge
approval), for comparison with `pull_request_approved_before_merging`: collect
reviews of kind APPROVED or CHANGES_REQUESTED with `submitted_at < merged_at`,
sorted ascending; empty or last not APPROVED → NO; last an APPROVED review by
a follow-up handle → NEEDS_FOLLOWUP when the non-follow-up sub-list is empty or
its last element is not an APPROVED review, else APPROVED; otherwise
APPROVED. -/
def approvedBeforeMergingSpec (cfg : Config) (pr : PullRequest) (mergedAt : Int) :
    ApprovedBeforeMergeStatus :=
  let prem := premergeReviews pr mergedAt
  match prem.getLast? with
  | none => ApprovedBeforeMergeStatus.NO
  | some latest =>
    if !latest.is_approval then
      ApprovedBeforeMergeStatus.NO
    else if cfg.followupReviewGithubUsers.contains latest.author.login then
      let nonFollowup := prem.filter
        (fun r => !(cfg.followupReviewGithubUsers.contains r.author.login))
      match nonFollowup.getLast? with
      | none => ApprovedBeforeMergeStatus.NEEDS_FOLLOWUP
      | some l =>
        if l.is_approval then ApprovedBeforeMergeStatus.APPROVED
        else ApprovedBeforeMergeStatus.NEEDS_FOLLOWUP
    else
      ApprovedBeforeMergeStatus.APPROVED

/-- `_is_approval_comment_body` (logic.py lines 134–142): case-insensitive
search for a fixed alternation of approval markers.  The regex's `ship\s?it`
is expanded into "shipit" and "ship" + one ASCII whitespace character +
"it". -/
def _is_approval_comment_body (body : String) : Bool :=
  ["sgtm", "lgtm", "sounds good", "sound good", "looks good", "look good",
   "looks great", "look great", "+1", "shipit", "ship it", "ship\tit",
   "ship\nit", "ship\x0bit", "ship\x0cit", "ship\rit", "👍", "🚢"].any
    (fun marker => lowerStrContains body marker)

/-- The post-merge comments considered by `pull_request_approved_after_merging`
(logic.py lines 166–176): published at or after the merge, not by the pull
request's author, and not by a follow-up handle. -/
def postmergeComments (cfg : Config) (pr : PullRequest) (mergedAt : Int) : List Comment :=
  pr.comments.filter
    (fun c => decide (mergedAt ≤ c.publishedAt)
      && !(c.author.login = pr.author.login)
      && !(cfg.followupReviewGithubUsers.contains c.author.login))

/-- The post-merge reviews considered by `pull_request_approved_after_merging`
(logic.py lines 178–184): submitted at or after the merge and not by a
follow-up handle (the pull request's author is *not* excluded here). -/
def postmergeReviews (cfg : Config) (pr : PullRequest) (mergedAt : Int) : List Review :=
  pr.reviews.filter
    (fun r => decide (mergedAt ≤ r.submittedAt)
      && !(cfg.followupReviewGithubUsers.contains r.author.login))

/-- The body texts scanned for an approval marker (logic.py lines 185–187). -/
def postmergeBodyTexts (cfg : Config) (pr : PullRequest) (mergedAt : Int) : List String :=
  (postmergeComments cfg pr mergedAt).map Comment.body
    ++ (postmergeReviews cfg pr mergedAt).map Review.body

/-- `pull_request_approved_after_merging` (logic.py lines 145–195). -/
def pull_request_approved_after_merging (cfg : Config) (pr : PullRequest) : Bool :=
  match pr.mergedAt with
  | some mergedAt =>
    !((postmergeBodyTexts cfg pr mergedAt).filter _is_approval_comment_body).isEmpty
  | none => false

/-! ## Warning comments -/

def _pull_request_has_automerge_comment (pr : PullRequest) (automergeComment : String) : Bool :=
  pr.comments.any (fun comment => comment.body == automergeComment)

/-- The warning text chosen for the pull request's label tier
(logic.py lines 230–234). -/
def automergeWarningFor (pr : PullRequest) : String :=
  if pull_request_has_label pr AutomergeLabel.AFTER_TESTS_AND_APPROVAL.value then
    AUTOMERGE_COMMENT_WARNING_AFTER_TESTS_AND_APPROVAL
  else
    AUTOMERGE_COMMENT_WARNING_AFTER_APPROVAL

/-- `maybe_add_automerge_warning_comment` (logic.py lines 215–244), returning
the list of external calls it issues. -/
def maybe_add_automerge_warning_comment (cfg : Config) (pr : PullRequest) : List Call :=
  if cfg.automergeEnabled then
    let has_automerge_after_tests_and_approval :=
      pull_request_has_label pr AutomergeLabel.AFTER_TESTS_AND_APPROVAL.value
    let has_automerge_after_approval :=
      pull_request_has_label pr AutomergeLabel.AFTER_APPROVAL.value
    if (has_automerge_after_tests_and_approval || has_automerge_after_approval)
        && !(_pull_request_has_automerge_comment pr (automergeWarningFor pr))
        && !pr.isApproved then
      [Call.addPrComment pr.repositoryOwnerHandle pr.repositoryName pr.number
        (automergeWarningFor pr)]
    else
      []
  else
    []

/-- The combined condition under which `maybe_add_automerge_warning_comment`
posts: feature enabled, an AFTER_TESTS_AND_APPROVAL or AFTER_APPROVAL label
present, no existing comment with the canonical warning body, and the pull
request not yet approved. -/
def warningGate (cfg : Config) (pr : PullRequest) : Bool :=
  cfg.automergeEnabled
    && (pull_request_has_label pr AutomergeLabel.AFTER_TESTS_AND_APPROVAL.value
        || pull_request_has_label pr AutomergeLabel.AFTER_APPROVAL.value)
    && !(_pull_request_has_automerge_comment pr (automergeWarningFor pr))
    && !pr.isApproved

/-! ## Stale check rerun -/

/-- `is_check_run_stale` (logic.py lines 364–370): a run is stale iff it has
completed and its completion time is strictly before the freshness boundary;
an incomplete run (`completed_at` null) is never stale. -/
def is_check_run_stale (run : CheckRun) (freshnessDate : Int) : Bool :=
  match run.completedAt with
  | some t => decide (t < freshnessDate)
  | none => false

/-- The first stale run of a check suite: the inner loop of
`_maybe_rerun_stale_checks` scans runs in order and stops at the first stale
one. -/
def suiteFirstStaleRun (freshnessDate : Int) (suite : CheckSuite) : Option CheckRun :=
  suite.checkRuns.find? (fun run => is_check_run_stale run freshnessDate)

/-- The rerequest calls one check suite contributes: none, or exactly one for
its first stale run. -/
def suiteRerunCalls (owner repo : String) (freshnessDate : Int) (suite : CheckSuite) :
    List Call :=
  ((suiteFirstStaleRun freshnessDate suite).map
    (fun run => Call.rerequestCheckRun owner repo run.databaseId)).toList

/-- The outer loop of `_maybe_rerun_stale_checks` (logic.py lines 356–385):
fold over the check suites, OR-ing the client's results and accumulating the
rerequest calls. -/
def scanCheckSuites (owner repo : String) (freshnessDate : Int) (oracle : Nat → Bool)
    (suites : List CheckSuite) : Bool × List Call :=
  suites.foldl
    (fun acc suite =>
      match suiteFirstStaleRun freshnessDate suite with
      | none => acc
      | some run =>
        (acc.1 || oracle run.databaseId,
         acc.2 ++ [Call.rerequestCheckRun owner repo run.databaseId]))
    (false, [])

/-- `_maybe_rerun_stale_checks` (logic.py lines 347–385).  `pull_request.commits()[0]`
on an empty commits list raises `IndexError`, modelled as `Except.error`. -/
def _maybe_rerun_stale_checks (cfg : Config) (now : Int) (oracle : Nat → Bool)
    (pr : PullRequest) : Except String (Bool × List Call) :=
  if !(cfg.checkRerunBaseRefNames.contains pr.baseRefName) then
    .ok (false, [])
  else if cfg.checkRerunThresholdHours ≤ 0 then
    .ok (false, [])
  else
    match pr.commits with
    | [] => .error "IndexError: list index out of range"
    | commit :: _ =>
      .ok (scanCheckSuites pr.repositoryOwnerHandle pr.repositoryName
        (now - cfg.checkRerunThresholdHours) oracle commit.checkSuites)

/-! ## Automerge -/

/-- The label-dispatch phase of `maybe_automerge_pull_request_and_rerun_stale_checks`
(logic.py lines 251–298): computes `is_pull_request_ready_for_automerge`,
`did_rerun_stale_required_checks` and the external calls issued so far.  The
`did_rerun_stale_required_checks` local is initialised to `False` at line 252,
so the guard at line 280 is always taken. -/
def automergeAssess (cfg : Config) (now : Int) (oracle : Nat → Bool)
    (pr : PullRequest) : Except String (Bool × Bool × List Call) :=
  if !cfg.automergeEnabled || !(_pull_request_is_open pr) then
    .ok (false, false, [])
  else if pull_request_has_label pr AutomergeLabel.IMMEDIATELY.value then
    .ok (pr.mergeable = MergeableState.MERGEABLE || pr.mergeable = MergeableState.UNKNOWN,
      false, [])
  else if pull_request_has_label pr AutomergeLabel.AFTER_TESTS.value then
    let ready := pr.isBuildSuccessful && pr.is_mergeable
    if ready then
      match _maybe_rerun_stale_checks cfg now oracle pr with
      | .error e => .error e
      | .ok (didRerun, calls) => .ok (ready, didRerun, calls)
    else
      .ok (ready, false, [])
  else if pull_request_has_label pr AutomergeLabel.AFTER_TESTS_AND_APPROVAL.value then
    let ready := pr.isBuildSuccessful && pr.is_mergeable && pr.isApproved
    if ready then
      match _maybe_rerun_stale_checks cfg now oracle pr with
      | .error e => .error e
      | .ok (didRerun, calls) => .ok (ready, didRerun, calls)
    else
      .ok (ready, false, [])
  else if pull_request_has_label pr AutomergeLabel.AFTER_APPROVAL.value then
    .ok (pr.is_mergeable && pr.isApproved, false, [])
  else
    .ok (false, false, [])

/-- The merge phase (logic.py lines 300–309): merge (with the pull request's
title and body) exactly when ready and no stale-check rerun was triggered. -/
def automergeFinal (pr : PullRequest) : Bool × Bool × List Call → Bool × List Call
  | (ready, didRerun, calls) =>
    if ready && !didRerun then
      (true, calls ++ [Call.mergePullRequest pr.repositoryOwnerHandle pr.repositoryName
        pr.number pr.title pr.body])
    else
      (false, calls)

/-- `maybe_automerge_pull_request_and_rerun_stale_checks` (logic.py lines
248–309).  The `did_rerun_stale_required_checks` parameter is unconditionally
overwritten to `False` at line 252, so it is unused. -/
def maybe_automerge_pull_request_and_rerun_stale_checks (cfg : Config) (now : Int)
    (oracle : Nat → Bool) (pr : PullRequest)
    (did_rerun_stale_required_checks : Bool := false) :
    Except String (Bool × List Call) :=
  (automergeAssess cfg now oracle pr).map (automergeFinal pr)

/-- The label the elif-chain of lines 258–288 dispatches on: the first label
the pull request has, scanned in the order IMMEDIATELY, AFTER_TESTS,
AFTER_TESTS_AND_APPROVAL, AFTER_APPROVAL. -/
def selectedAutomergeLabel (pr : PullRequest) : Option AutomergeLabel :=
  if pull_request_has_label pr AutomergeLabel.IMMEDIATELY.value then
    some AutomergeLabel.IMMEDIATELY
  else if pull_request_has_label pr AutomergeLabel.AFTER_TESTS.value then
    some AutomergeLabel.AFTER_TESTS
  else if pull_request_has_label pr AutomergeLabel.AFTER_TESTS_AND_APPROVAL.value then
    some AutomergeLabel.AFTER_TESTS_AND_APPROVAL
  else if pull_request_has_label pr AutomergeLabel.AFTER_APPROVAL.value then
    some AutomergeLabel.AFTER_APPROVAL
  else
    none

/-- The readiness-and-rerun assessment of one automerge branch, indexed by the
selected label; `automergeAssess` on an enabled, open pull request is this
function applied to `selectedAutomergeLabel`. -/
def automergeBranchAssess (cfg : Config) (now : Int) (oracle : Nat → Bool)
    (pr : PullRequest) : Option AutomergeLabel → Except String (Bool × Bool × List Call)
  | some AutomergeLabel.IMMEDIATELY =>
    .ok (pr.mergeable = MergeableState.MERGEABLE || pr.mergeable = MergeableState.UNKNOWN,
      false, [])
  | some AutomergeLabel.AFTER_TESTS =>
    let ready := pr.isBuildSuccessful && pr.is_mergeable
    if ready then
      match _maybe_rerun_stale_checks cfg now oracle pr with
      | .error e => .error e
      | .ok (didRerun, calls) => .ok (ready, didRerun, calls)
    else
      .ok (ready, false, [])
  | some AutomergeLabel.AFTER_TESTS_AND_APPROVAL =>
    let ready := pr.isBuildSuccessful && pr.is_mergeable && pr.isApproved
    if ready then
      match _maybe_rerun_stale_checks cfg now oracle pr with
      | .error e => .error e
      | .ok (didRerun, calls) => .ok (ready, didRerun, calls)
    else
      .ok (ready, false, [])
  | some AutomergeLabel.AFTER_APPROVAL =>
    .ok (pr.is_mergeable && pr.isApproved, false, [])
  | none =>
    .ok (false, false, [])

/-! ## Concrete fixtures for witnesses and counterexamples -/

namespace Fixtures

def cfgMain : Config :=
  { automergeEnabled := true
    followupReviewGithubUsers := ["fup"]
    checkRerunThresholdHours := 5
    checkRerunBaseRefNames := ["main"]
    checkRerunOnApprovalEnabled := false }

/-- An open pull request labelled with both "merge after tests and approval"
and "merge after tests", build green, mergeable, not approved. -/
def prOpen : PullRequest :=
  { id := "PR1"
    author := ⟨"alice"⟩
    title := "t"
    body := "b"
    labels := ["merge after tests and approval", "merge after tests"]
    merged := false
    mergedAt := none
    closed := false
    mergeable := MergeableState.MERGEABLE
    baseRefName := "dev"
    reviews := []
    comments := []
    commits := []
    number := 1
    repositoryOwnerHandle := "o"
    repositoryName := "r"
    isBuildSuccessful := true
    isApproved := false }

/-- Merged pull request whose merge timestamp is unknown. -/
def prMergedUnknown : PullRequest :=
  { prOpen with merged := true, mergedAt := none, closed := true }

/-- Merged pull request with a review history:
APPROVED at 50 by bob, CHANGES_REQUESTED at 80 by follow-up user fup. -/
def prMerged : PullRequest :=
  { prOpen with
    merged := true
    mergedAt := some 100
    closed := true
    reviews := [⟨⟨"bob"⟩, 50, ReviewState.APPROVED, "ok"⟩,
                ⟨⟨"fup"⟩, 80, ReviewState.CHANGES_REQUESTED, "no"⟩] }

/-- Merged pull request whose only post-merge text is a review by its own
author containing an approval marker. -/
def prAuthorReview : PullRequest :=
  { prOpen with
    merged := true
    mergedAt := some 100
    closed := true
    reviews := [⟨⟨"alice"⟩, 100, ReviewState.COMMENTED, "lgtm"⟩] }

/-- Open pull request on an allow-listed base ref with one commit carrying two
check suites; the first suite's first stale run has database id 2. -/
def prStale : PullRequest :=
  { prOpen with
    baseRefName := "main"
    labels := []
    commits := [⟨[⟨[⟨1, none⟩, ⟨2, some 90⟩, ⟨3, some 10⟩]⟩, ⟨[⟨4, some 99⟩]⟩]⟩] }

/-- Open pull request on an allow-listed base ref with no commits. -/
def prNoCommits : PullRequest :=
  { prOpen with baseRefName := "main", labels := [] }

/-- Pull request labelled "merge after approval", not approved, already
carrying the canonical warning comment. -/
def prWarned : PullRequest :=
  { prOpen with
    labels := ["merge after approval"]
    comments := [⟨⟨"bot"⟩, 0, AUTOMERGE_COMMENT_WARNING_AFTER_APPROVAL⟩] }

end Fixtures

/-! ## Claim theorems -/

/-- C9: `maybe_automerge_pull_request_and_rerun_stale_checks` behaves
identically (same return value and same external calls) whether its
`did_rerun_stale_required_checks` argument is `true` or `false`: the local is
unconditionally reset to `False` at line 252 before any use, so the result is
independent of the argument. -/
theorem automerge_independent_of_did_rerun_argument
    (cfg : Config) (now : Int) (oracle : Nat → Bool) (pr : PullRequest) :
    maybe_automerge_pull_request_and_rerun_stale_checks cfg now oracle pr true =
      maybe_automerge_pull_request_and_rerun_stale_checks cfg now oracle pr false :=
  rfl

/-- C10: on a pull request with no commits whose base ref is in the configured
allow-list and with a positive rerun threshold, `_maybe_rerun_stale_checks`
does not return `false` but fails with an unguarded `IndexError` from
`pull_request.commits()[0]`. -/
theorem rerun_stale_checks_empty_commits_index_error
    (cfg : Config) (now : Int) (oracle : Nat → Bool) (pr : PullRequest)
    (hc : pr.commits = [])
    (hb : cfg.checkRerunBaseRefNames.contains pr.baseRefName = true)
    (ht : 0 < cfg.checkRerunThresholdHours) :
    _maybe_rerun_stale_checks cfg now oracle pr =
      .error "IndexError: list index out of range" := by
  have h2 : ¬ cfg.checkRerunThresholdHours ≤ 0 := by omega
  have hb' : pr.baseRefName ∈ cfg.checkRerunBaseRefNames := List.elem_iff.mp hb
  simp [_maybe_rerun_stale_checks, hb, hb', hc, h2]

theorem rerun_stale_checks_empty_commits_index_error_witness :
    _maybe_rerun_stale_checks Fixtures.cfgMain 100 (fun _ => true) Fixtures.prNoCommits =
      .error "IndexError: list index out of range" :=
  rerun_stale_checks_empty_commits_index_error Fixtures.cfgMain 100 (fun _ => true)
    Fixtures.prNoCommits rfl rfl (by decide)

/-- C7: `pull_request_approved_before_merging` fails fast (a fatal
precondition violation, modelled as `Except.error`) on every non-merged pull
request, and on a merged pull request with unknown `merged_at` it returns NO
rather than raising. -/
theorem approved_before_merging_precondition (cfg : Config) (pr : PullRequest) :
    (pr.merged = false →
      pull_request_approved_before_merging cfg pr =
        .error "Checked for pre-merge approval on a non-merged PR")
    ∧ (pr.merged = true → pr.mergedAt = none →
      pull_request_approved_before_merging cfg pr = .ok ApprovedBeforeMergeStatus.NO) := by
  constructor
  · intro h
    simp [pull_request_approved_before_merging, h]
  · intro h h2
    simp [pull_request_approved_before_merging, h, h2]

theorem approved_before_merging_precondition_witness :
    pull_request_approved_before_merging Fixtures.cfgMain Fixtures.prOpen =
        .error "Checked for pre-merge approval on a non-merged PR"
    ∧ pull_request_approved_before_merging Fixtures.cfgMain Fixtures.prMergedUnknown =
        .ok ApprovedBeforeMergeStatus.NO :=
  ⟨(approved_before_merging_precondition Fixtures.cfgMain Fixtures.prOpen).1 rfl,
   (approved_before_merging_precondition Fixtures.cfgMain Fixtures.prMergedUnknown).2 rfl rfl⟩

/-- C2: on every merged pull request with a known `merged_at`,
`pull_request_approved_before_merging` computes exactly the spec's reference
procedure `approvedBeforeMergingSpec` (collect APPROVED/CHANGES_REQUESTED
reviews strictly before the merge, sort ascending by submission time, inspect
the last element, with the follow-up corroboration rule). -/
theorem approved_before_merging_matches_spec (cfg : Config) (pr : PullRequest)
    (t : Int) (hm : pr.merged = true) (ht : pr.mergedAt = some t) :
    pull_request_approved_before_merging cfg pr =
      .ok (approvedBeforeMergingSpec cfg pr t) := by
  simp only [pull_request_approved_before_merging, approvedBeforeMergingSpec, hm, ht,
    Bool.not_true, Bool.false_eq_true, if_false]
  cases hL : (premergeReviews pr t).getLast? with
  | none => simp
  | some latest =>
    by_cases hA : latest.is_approval = true
    · by_cases hF : latest.author.login ∈ cfg.followupReviewGithubUsers
      · simp [hA, hF]
        split
        · rfl
        · rename_i l _
          by_cases hA2 : l.is_approval = true <;> simp [hA2]
      · simp [hA, hF]
    · simp [hA]

theorem approved_before_merging_matches_spec_witness :
    pull_request_approved_before_merging Fixtures.cfgMain Fixtures.prMerged =
      .ok (approvedBeforeMergingSpec Fixtures.cfgMain Fixtures.prMerged 100) :=
  approved_before_merging_matches_spec Fixtures.cfgMain Fixtures.prMerged 100 rfl rfl

/-- A filtered list is empty exactly when no element satisfies the
predicate. -/
theorem filter_isEmpty_eq_not_any {α : Type} (p : α → Bool) (l : List α) :
    (l.filter p).isEmpty = !l.any p := by
  induction l with
  | nil => rfl
  | cons x xs ih => by_cases h : p x = true <;> simp [List.filter_cons, h, ih]

/-- C8: `pull_request_approved_after_merging` is false on every pull request
with null `merged_at`; otherwise it is true iff at least one body text among
the qualifying post-merge comments and reviews satisfies the approval-marker
predicate — false whenever none does, regardless of how many post-merge
comments exist. -/
theorem approved_after_merging_characterisation (cfg : Config) (pr : PullRequest) :
    (pr.mergedAt = none → pull_request_approved_after_merging cfg pr = false)
    ∧ (∀ t, pr.mergedAt = some t →
        (pull_request_approved_after_merging cfg pr = true ↔
          ∃ body ∈ postmergeBodyTexts cfg pr t, _is_approval_comment_body body = true)) := by
  constructor
  · intro h
    simp [pull_request_approved_after_merging, h]
  · intro t h
    simp only [pull_request_approved_after_merging, h, filter_isEmpty_eq_not_any,
      Bool.not_not, List.any_eq_true]

theorem approved_after_merging_characterisation_witness :
    pull_request_approved_after_merging Fixtures.cfgMain Fixtures.prMergedUnknown = false :=
  (approved_after_merging_characterisation Fixtures.cfgMain Fixtures.prMergedUnknown).1 rfl

/-- C3 counterexample: a merged pull request whose only post-merge text is an
approval-marker review submitted by the pull request's own author (not a
follow-up handle) is classified as approved after merging — the review is not
ignored, contradicting the claim that reviews authored by the pull request's
author contribute nothing. -/
theorem approved_after_merging_author_review_counterexample :
    Fixtures.prAuthorReview.comments = []
    ∧ Fixtures.prAuthorReview.reviews.all
        (fun r => r.author.login == Fixtures.prAuthorReview.author.login) = true
    ∧ (Fixtures.cfgMain.followupReviewGithubUsers.contains "alice") = false
    ∧ pull_request_approved_after_merging Fixtures.cfgMain Fixtures.prAuthorReview = true :=
  ⟨rfl, rfl, rfl, rfl⟩

/-- C3 (amended): `pull_request_approved_after_merging` ignores comments
authored by the pull request's author or by a follow-up handle, and reviews
authored by a follow-up handle, even when their body text matches an approval
marker; reviews authored by the pull request's author are NOT excluded.  Only
comments with `published_at >= merged_at` by a non-author, non-follow-up
handle and reviews with `submitted_at >= merged_at` by a non-follow-up handle
are considered. -/
theorem approved_after_merging_ignored_authors (cfg : Config) (pr : PullRequest)
    (c : Comment) (r : Review)
    (hc : c.author.login = pr.author.login
      ∨ c.author.login ∈ cfg.followupReviewGithubUsers)
    (hr : r.author.login ∈ cfg.followupReviewGithubUsers) :
    pull_request_approved_after_merging cfg { pr with comments := pr.comments ++ [c] } =
      pull_request_approved_after_merging cfg pr
    ∧ pull_request_approved_after_merging cfg { pr with reviews := pr.reviews ++ [r] } =
      pull_request_approved_after_merging cfg pr := by
  constructor
  · cases h : pr.mergedAt with
    | none => simp [pull_request_approved_after_merging, h]
    | some t =>
      rcases hc with h1 | h1 <;>
        simp [pull_request_approved_after_merging, h, postmergeBodyTexts,
          postmergeComments, postmergeReviews, List.filter_append, h1]
  · cases h : pr.mergedAt with
    | none => simp [pull_request_approved_after_merging, h]
    | some t =>
      simp [pull_request_approved_after_merging, h, postmergeBodyTexts,
        postmergeComments, postmergeReviews, List.filter_append, hr]

theorem approved_after_merging_ignored_authors_witness :
    pull_request_approved_after_merging Fixtures.cfgMain
        { Fixtures.prMerged with comments := Fixtures.prMerged.comments
            ++ [⟨⟨"alice"⟩, 150, "lgtm"⟩] } =
      pull_request_approved_after_merging Fixtures.cfgMain Fixtures.prMerged :=
  (approved_after_merging_ignored_authors Fixtures.cfgMain Fixtures.prMerged
    ⟨⟨"alice"⟩, 150, "lgtm"⟩ ⟨⟨"fup"⟩, 150, ReviewState.COMMENTED, "lgtm"⟩
    (Or.inl rfl) (by decide)).1

/-- `maybe_add_automerge_warning_comment` posts the canonical warning comment
exactly when `warningGate` holds. -/
theorem maybe_add_warning_eq_gate (cfg : Config) (pr : PullRequest) :
    maybe_add_automerge_warning_comment cfg pr =
      if warningGate cfg pr then
        [Call.addPrComment pr.repositoryOwnerHandle pr.repositoryName pr.number
          (automergeWarningFor pr)]
      else [] := by
  cases hen : cfg.automergeEnabled <;>
    simp [maybe_add_automerge_warning_comment, warningGate, hen, Bool.and_assoc]

/-- C6: `maybe_add_automerge_warning_comment` is idempotent via exact-body
deduplication.  It posts at most one comment per call; a posted comment is
always the canonical warning text for the label tier, and only when the
feature is enabled, an AFTER_TESTS_AND_APPROVAL or AFTER_APPROVAL label is
present, the pull request is not approved, and no existing comment's body
equals that canonical text; if the canonical warning text already occurs in
the snapshot the call posts nothing; and after any call's posted comment is
reflected in the snapshot, re-invocation posts nothing — so two calls in
succession post at most one warning in total. -/
theorem warning_comment_idempotent (cfg : Config) (pr : PullRequest) :
    (maybe_add_automerge_warning_comment cfg pr).length ≤ 1
    ∧ (∀ u t, maybe_add_automerge_warning_comment cfg
        { pr with comments := pr.comments ++ [⟨u, t, automergeWarningFor pr⟩] } = [])
    ∧ ((∃ c ∈ pr.comments, c.body = automergeWarningFor pr) →
        maybe_add_automerge_warning_comment cfg pr = [])
    ∧ (maybe_add_automerge_warning_comment cfg pr ≠ [] →
        maybe_add_automerge_warning_comment cfg pr =
          [Call.addPrComment pr.repositoryOwnerHandle pr.repositoryName pr.number
            (automergeWarningFor pr)]
        ∧ cfg.automergeEnabled = true
        ∧ (pull_request_has_label pr AutomergeLabel.AFTER_TESTS_AND_APPROVAL.value = true
            ∨ pull_request_has_label pr AutomergeLabel.AFTER_APPROVAL.value = true)
        ∧ pr.isApproved = false
        ∧ _pull_request_has_automerge_comment pr (automergeWarningFor pr) = false) := by
  refine ⟨?_, ?_, ?_, ?_⟩
  · rw [maybe_add_warning_eq_gate]
    split <;> simp
  · intro u t
    have hdup : _pull_request_has_automerge_comment
        { pr with comments := pr.comments ++ [⟨u, t, automergeWarningFor pr⟩] }
        (automergeWarningFor { pr with comments :=
          pr.comments ++ [⟨u, t, automergeWarningFor pr⟩] }) = true := by
      simp [_pull_request_has_automerge_comment, List.any_append, automergeWarningFor,
        pull_request_has_label]
    rw [maybe_add_warning_eq_gate]
    simp [warningGate, hdup]
  · intro hex
    have hdup : _pull_request_has_automerge_comment pr (automergeWarningFor pr) = true := by
      rcases hex with ⟨c, hmem, hbody⟩
      simp only [_pull_request_has_automerge_comment, List.any_eq_true]
      exact ⟨c, hmem, by simp [hbody]⟩
    rw [maybe_add_warning_eq_gate]
    simp [warningGate, hdup]
  · intro hne
    rw [maybe_add_warning_eq_gate] at hne
    by_cases hg : warningGate cfg pr = true
    · have hg' := hg
      simp only [warningGate, Bool.and_eq_true, Bool.or_eq_true, Bool.not_eq_true'] at hg'
      refine ⟨?_, hg'.1.1.1, hg'.1.1.2, hg'.2, hg'.1.2⟩
      rw [maybe_add_warning_eq_gate, hg]
      simp
    · rw [Bool.not_eq_true] at hg
      rw [hg] at hne
      simp at hne

theorem warning_comment_idempotent_witness :
    maybe_add_automerge_warning_comment Fixtures.cfgMain Fixtures.prWarned = [] :=
  (warning_comment_idempotent Fixtures.cfgMain Fixtures.prWarned).2.2.1
    ⟨⟨⟨"bot"⟩, 0, AUTOMERGE_COMMENT_WARNING_AFTER_APPROVAL⟩,
      List.mem_singleton.mpr rfl, rfl⟩

/-- The calls accumulated by the check-suite fold: each suite appends the
rerequest calls of its first stale run (if any). -/
theorem scanCheckSuites_calls (o r : String) (fd : Int) (oracle : Nat → Bool)
    (suites : List CheckSuite) :
    ∀ acc : Bool × List Call,
      (suites.foldl
        (fun acc suite =>
          match suiteFirstStaleRun fd suite with
          | none => acc
          | some run =>
            (acc.1 || oracle run.databaseId,
             acc.2 ++ [Call.rerequestCheckRun o r run.databaseId])) acc).2
      = acc.2 ++ (suites.map (suiteRerunCalls o r fd)).flatten := by
  induction suites with
  | nil => intro acc; simp
  | cons s ss ih =>
    intro acc
    cases hs : suiteFirstStaleRun fd s with
    | none => simp [List.foldl_cons, hs, suiteRerunCalls, ih]
    | some run => simp [List.foldl_cons, hs, suiteRerunCalls, ih]

theorem scanCheckSuites_snd (o r : String) (fd : Int) (oracle : Nat → Bool)
    (suites : List CheckSuite) :
    (scanCheckSuites o r fd oracle suites).2
      = (suites.map (suiteRerunCalls o r fd)).flatten := by
  rw [scanCheckSuites, scanCheckSuites_calls]
  simp

/-- C5: in every invocation of `_maybe_rerun_stale_checks`, each check suite
of the scanned (first) commit contributes at most one rerequest call — the
scan stops at the suite's first stale run; a check run with null
`completed_at` is never rerequested; and a run is stale exactly when it has
completed with completion time strictly before `now` minus the configured
threshold. -/
theorem stale_rerun_per_suite (cfg : Config) (now : Int) (oracle : Nat → Bool)
    (pr : PullRequest) (b : Bool) (calls : List Call)
    (h : _maybe_rerun_stale_checks cfg now oracle pr = .ok (b, calls))
    (hne : calls ≠ []) :
    (∃ commit rest, pr.commits = commit :: rest ∧
      calls = (commit.checkSuites.map (suiteRerunCalls pr.repositoryOwnerHandle
        pr.repositoryName (now - cfg.checkRerunThresholdHours))).flatten)
    ∧ (∀ o r fd suite, (suiteRerunCalls o r fd suite).length ≤ 1)
    ∧ (∀ o r fd suite c, c ∈ suiteRerunCalls o r fd suite →
        ∃ run ∈ suite.checkRuns, (∃ t, run.completedAt = some t ∧ t < fd)
          ∧ c = Call.rerequestCheckRun o r run.databaseId)
    ∧ (∀ run fd, is_check_run_stale run fd = true ↔
        ∃ t, run.completedAt = some t ∧ t < fd) := by
  refine ⟨?_, ?_, ?_, ?_⟩
  · simp only [_maybe_rerun_stale_checks] at h
    split at h
    · simp only [Except.ok.injEq, Prod.mk.injEq] at h
      exact absurd h.2.symm hne
    · split at h
      · simp only [Except.ok.injEq, Prod.mk.injEq] at h
        exact absurd h.2.symm hne
      · rcases hcm : pr.commits with _ | ⟨commit, rest⟩
        · rw [hcm] at h
          exact Except.noConfusion h
        · rw [hcm] at h
          simp only [Except.ok.injEq] at h
          refine ⟨commit, rest, rfl, ?_⟩
          have h2 := congrArg Prod.snd h
          rw [scanCheckSuites_snd] at h2
          exact h2.symm
  · intro o r fd suite
    rw [suiteRerunCalls]
    cases suiteFirstStaleRun fd suite <;> simp
  · intro o r fd suite c hc
    rw [suiteRerunCalls] at hc
    cases hs : suiteFirstStaleRun fd suite with
    | none => rw [hs] at hc; simp at hc
    | some run =>
      rw [hs] at hc
      simp at hc
      rw [suiteFirstStaleRun] at hs
      have hmem := List.mem_of_find?_eq_some hs
      have hp := List.find?_some hs
      refine ⟨run, hmem, ?_, hc⟩
      cases hct : run.completedAt with
      | none => rw [is_check_run_stale, hct] at hp; simp at hp
      | some t =>
        refine ⟨t, rfl, ?_⟩
        rw [is_check_run_stale, hct] at hp
        exact of_decide_eq_true hp
  · intro run fd
    cases hct : run.completedAt <;> simp [is_check_run_stale, hct]

theorem stale_rerun_per_suite_witness :
    ∃ commit rest, Fixtures.prStale.commits = commit :: rest ∧
      [Call.rerequestCheckRun "o" "r" 2] =
        (commit.checkSuites.map (suiteRerunCalls "o" "r"
          (100 - Fixtures.cfgMain.checkRerunThresholdHours))).flatten :=
  (stale_rerun_per_suite Fixtures.cfgMain 100 (fun _ => true) Fixtures.prStale true
    [Call.rerequestCheckRun "o" "r" 2] rfl (List.cons_ne_nil _ _)).1

/-- Every call issued by `_maybe_rerun_stale_checks` is a check-run
rerequest. -/
theorem rerun_calls_shape (cfg : Config) (now : Int) (oracle : Nat → Bool)
    (pr : PullRequest) (b : Bool) (calls : List Call)
    (h : _maybe_rerun_stale_checks cfg now oracle pr = .ok (b, calls)) :
    ∀ c ∈ calls, ∃ o r i, c = Call.rerequestCheckRun o r i := by
  intro c hc
  simp only [_maybe_rerun_stale_checks] at h
  split at h
  · simp only [Except.ok.injEq, Prod.mk.injEq] at h
    rw [← h.2] at hc
    simp at hc
  · split at h
    · simp only [Except.ok.injEq, Prod.mk.injEq] at h
      rw [← h.2] at hc
      simp at hc
    · rcases hcm : pr.commits with _ | ⟨commit, rest⟩
      · rw [hcm] at h
        exact Except.noConfusion h
      · rw [hcm] at h
        simp only [Except.ok.injEq] at h
        have hsnd : (scanCheckSuites pr.repositoryOwnerHandle pr.repositoryName
            (now - cfg.checkRerunThresholdHours) oracle commit.checkSuites).2 = calls := by
          rw [h]
        rw [scanCheckSuites_snd] at hsnd
        rw [← hsnd] at hc
        rcases List.mem_flatten.mp hc with ⟨l, hl, hcl⟩
        rcases List.mem_map.mp hl with ⟨suite, _, rfl⟩
        rw [suiteRerunCalls] at hcl
        cases hs : suiteFirstStaleRun (now - cfg.checkRerunThresholdHours) suite with
        | none => rw [hs] at hcl; simp at hcl
        | some run =>
          rw [hs] at hcl
          simp at hcl
          exact ⟨_, _, _, hcl⟩

/-- Every call issued by the assessment phase of the automerge procedure is a
check-run rerequest (in particular, never a merge call). -/
theorem assess_calls_shape (cfg : Config) (now : Int) (oracle : Nat → Bool)
    (pr : PullRequest) (ready didRerun : Bool) (cs : List Call)
    (h : automergeAssess cfg now oracle pr = .ok (ready, didRerun, cs)) :
    ∀ c ∈ cs, ∃ o r i, c = Call.rerequestCheckRun o r i := by
  intro c hc
  simp only [automergeAssess] at h
  split at h
  · simp only [Except.ok.injEq, Prod.mk.injEq] at h
    rw [← h.2.2] at hc
    simp at hc
  · split at h
    · simp only [Except.ok.injEq, Prod.mk.injEq] at h
      rw [← h.2.2] at hc
      simp at hc
    · split at h
      · split at h
        · cases hR : _maybe_rerun_stale_checks cfg now oracle pr with
          | error e =>
            rw [hR] at h
            exact Except.noConfusion h
          | ok p =>
            obtain ⟨r', cs'⟩ := p
            rw [hR] at h
            simp only [Except.ok.injEq, Prod.mk.injEq] at h
            rw [← h.2.2] at hc
            exact rerun_calls_shape cfg now oracle pr r' cs' hR c hc
        · simp only [Except.ok.injEq, Prod.mk.injEq] at h
          rw [← h.2.2] at hc
          simp at hc
      · split at h
        · split at h
          · cases hR : _maybe_rerun_stale_checks cfg now oracle pr with
            | error e =>
              rw [hR] at h
              exact Except.noConfusion h
            | ok p =>
              obtain ⟨r', cs'⟩ := p
              rw [hR] at h
              simp only [Except.ok.injEq, Prod.mk.injEq] at h
              rw [← h.2.2] at hc
              exact rerun_calls_shape cfg now oracle pr r' cs' hR c hc
          · simp only [Except.ok.injEq, Prod.mk.injEq] at h
            rw [← h.2.2] at hc
            simp at hc
        · split at h
          · simp only [Except.ok.injEq, Prod.mk.injEq] at h
            rw [← h.2.2] at hc
            simp at hc
          · simp only [Except.ok.injEq, Prod.mk.injEq] at h
            rw [← h.2.2] at hc
            simp at hc

/-- C4: `maybe_automerge_pull_request_and_rerun_stale_checks` returns true iff
it issues the merge call, which happens exactly when the selected branch's
readiness flag holds and no stale-check rerun was triggered this pass; the
merge call carries the pull request's title and body verbatim; a triggered
rerun defers the merge and the result is false; and a disabled feature or a
closed/merged pull request yields false with no calls. -/
theorem automerge_return_iff_merge_call (cfg : Config) (now : Int)
    (oracle : Nat → Bool) (pr : PullRequest) (bArg ready didRerun : Bool)
    (cs : List Call)
    (h : automergeAssess cfg now oracle pr = .ok (ready, didRerun, cs)) :
    maybe_automerge_pull_request_and_rerun_stale_checks cfg now oracle pr bArg =
      .ok (ready && !didRerun,
        if ready && !didRerun then
          cs ++ [Call.mergePullRequest pr.repositoryOwnerHandle pr.repositoryName
            pr.number pr.title pr.body]
        else cs)
    ∧ (∀ res, maybe_automerge_pull_request_and_rerun_stale_checks cfg now oracle pr bArg
          = .ok res →
        (res.1 = true ↔ Call.mergePullRequest pr.repositoryOwnerHandle
          pr.repositoryName pr.number pr.title pr.body ∈ res.2))
    ∧ (didRerun = true →
        maybe_automerge_pull_request_and_rerun_stale_checks cfg now oracle pr bArg
          = .ok (false, cs))
    ∧ ((cfg.automergeEnabled = false ∨ _pull_request_is_open pr = false) →
        maybe_automerge_pull_request_and_rerun_stale_checks cfg now oracle pr bArg
          = .ok (false, [])) := by
  have hmain : maybe_automerge_pull_request_and_rerun_stale_checks cfg now oracle pr bArg =
      .ok (ready && !didRerun,
        if ready && !didRerun then
          cs ++ [Call.mergePullRequest pr.repositoryOwnerHandle pr.repositoryName
            pr.number pr.title pr.body]
        else cs) := by
    rw [maybe_automerge_pull_request_and_rerun_stale_checks, h]
    simp only [Except.map, automergeFinal]
    by_cases hrd : (ready && !didRerun) = true
    · simp [hrd]
    · rw [Bool.not_eq_true] at hrd
      simp [hrd]
  refine ⟨hmain, ?_, ?_, ?_⟩
  · intro res hres
    rw [hmain] at hres
    simp only [Except.ok.injEq] at hres
    subst hres
    by_cases hrd : (ready && !didRerun) = true
    · simp [hrd]
    · rw [Bool.not_eq_true] at hrd
      simp only [hrd, Bool.false_eq_true, if_false]
      constructor
      · intro hfalse
        exact absurd hfalse (by simp)
      · intro hmem
        rcases assess_calls_shape cfg now oracle pr ready didRerun cs h _ hmem with
          ⟨o, r, i, hshape⟩
        exact Call.noConfusion hshape
  · intro hrd
    rw [hmain, hrd]
    simp
  · intro hdis
    have hassess : automergeAssess cfg now oracle pr = .ok (false, false, []) := by
      rcases hdis with hd | hd <;> simp [automergeAssess, hd]
    rw [hassess] at h
    simp only [Except.ok.injEq, Prod.mk.injEq] at h
    rw [hmain, ← h.1, ← h.2.2]
    simp

theorem automerge_return_iff_merge_call_witness :
    maybe_automerge_pull_request_and_rerun_stale_checks Fixtures.cfgMain 0
        (fun _ => false) Fixtures.prOpen false =
      .ok (true, [Call.mergePullRequest "o" "r" 1 "t" "b"]) :=
  (automerge_return_iff_merge_call Fixtures.cfgMain 0 (fun _ => false)
    Fixtures.prOpen false true false [] rfl).1

/-- C1 counterexample: an open pull request labelled with both
AFTER_TESTS_AND_APPROVAL and AFTER_TESTS, not approved, with a green build and
a mergeable state, is merged — so the branch evaluated is the AFTER_TESTS one
(which does not require approval), not the AFTER_TESTS_AND_APPROVAL one the
claimed precedence order would select. -/
theorem automerge_precedence_counterexample :
    pull_request_has_label Fixtures.prOpen
        AutomergeLabel.AFTER_TESTS_AND_APPROVAL.value = true
    ∧ pull_request_has_label Fixtures.prOpen AutomergeLabel.AFTER_TESTS.value = true
    ∧ Fixtures.prOpen.isApproved = false
    ∧ maybe_automerge_pull_request_and_rerun_stale_checks Fixtures.cfgMain 0
        (fun _ => false) Fixtures.prOpen false =
      .ok (true, [Call.mergePullRequest "o" "r" 1 "t" "b"]) :=
  ⟨rfl, rfl, rfl, rfl⟩

/-- C1 (amended): on an enabled feature and an open pull request,
`maybe_automerge_pull_request_and_rerun_stale_checks` evaluates exactly one
readiness branch, the one of the first matching label scanned in the order
IMMEDIATELY > AFTER_TESTS > AFTER_TESTS_AND_APPROVAL > AFTER_APPROVAL; in
particular a pull request labelled with both AFTER_TESTS_AND_APPROVAL and
AFTER_TESTS (and not IMMEDIATELY) gets the AFTER_TESTS branch, and one
labelled IMMEDIATELY (for example together with AFTER_APPROVAL) gets the
IMMEDIATELY branch. -/
theorem automerge_label_precedence (cfg : Config) (now : Int) (oracle : Nat → Bool)
    (pr : PullRequest) (bArg : Bool)
    (hen : cfg.automergeEnabled = true) (hop : _pull_request_is_open pr = true) :
    maybe_automerge_pull_request_and_rerun_stale_checks cfg now oracle pr bArg =
      (automergeBranchAssess cfg now oracle pr (selectedAutomergeLabel pr)).map
        (automergeFinal pr)
    ∧ (pull_request_has_label pr AutomergeLabel.IMMEDIATELY.value = true →
        selectedAutomergeLabel pr = some AutomergeLabel.IMMEDIATELY)
    ∧ (pull_request_has_label pr AutomergeLabel.IMMEDIATELY.value = false →
        pull_request_has_label pr AutomergeLabel.AFTER_TESTS.value = true →
        selectedAutomergeLabel pr = some AutomergeLabel.AFTER_TESTS) := by
  refine ⟨?_, ?_, ?_⟩
  · rw [maybe_automerge_pull_request_and_rerun_stale_checks]
    have hassess : automergeAssess cfg now oracle pr =
        automergeBranchAssess cfg now oracle pr (selectedAutomergeLabel pr) := by
      have hcond : (!cfg.automergeEnabled || !(_pull_request_is_open pr)) = false := by
        simp [hen, hop]
      simp only [automergeAssess, hcond, Bool.false_eq_true, if_false]
      by_cases h1 : pull_request_has_label pr AutomergeLabel.IMMEDIATELY.value = true <;>
        by_cases h2 : pull_request_has_label pr AutomergeLabel.AFTER_TESTS.value = true <;>
        by_cases h3 : pull_request_has_label pr
          AutomergeLabel.AFTER_TESTS_AND_APPROVAL.value = true <;>
        by_cases h4 : pull_request_has_label pr AutomergeLabel.AFTER_APPROVAL.value = true <;>
        simp [selectedAutomergeLabel, automergeBranchAssess, h1, h2, h3, h4]
    rw [hassess]
  · intro h1
    simp [selectedAutomergeLabel, h1]
  · intro h1 h2
    simp [selectedAutomergeLabel, h1, h2]

theorem automerge_label_precedence_witness :
    selectedAutomergeLabel Fixtures.prOpen = some AutomergeLabel.AFTER_TESTS :=
  (automerge_label_precedence Fixtures.cfgMain 0 (fun _ => false) Fixtures.prOpen false
    rfl rfl).2.2 rfl rfl

end SGTM
